import Mathlib

/-!
Shallow embedding of the `ops_agent` package (config.py, shell.py, llm.py,
graph.py, cli.py).  Python dictionaries holding JSON data are modelled by
`PyJson`; Python's `or` on strings/options and its truthiness rules are
modelled explicitly; `json.loads`, the subprocess layer, the SSH layer, the
language-model client and the operator's terminal input are boundary
dependencies and are modelled as oracles (function parameters), exactly as
the source treats them.  Fallible Python code (an expression that can raise)
is modelled with `Except`.  JSON numbers are modelled as integers; no claim
depends on fractional values.
-/

/-- A JSON value as produced by Python's `json.loads`. -/
inductive PyJson where
  | str (s : String)
  | num (n : Int)
  | bool (b : Bool)
  | null
  | arr (xs : List PyJson)
  | obj (fields : List (String × PyJson))

/-- Python truthiness (`bool(v)`) of a JSON value. -/
def PyJson.truthy : PyJson → Bool
  | .str s => s != ""
  | .num n => n != 0
  | .bool b => b
  | .null => false
  | .arr xs => !xs.isEmpty
  | .obj fs => !fs.isEmpty

/-- Abstracted text of the `AttributeError` Python raises when `.get` is
called on a non-dict value (the exact interpreter message is not modelled). -/
def pyAttrErr : String := "AttributeError: object has no attribute get"

/-- `v.get(key, default)` in a context where `v` is known to be a dict;
on a non-dict the default is returned (this branch is unreachable at the
one call site that uses it, see `reflect_candidate`). -/
def PyJson.getd (v : PyJson) (key : String) (default : PyJson) : PyJson :=
  match v with
  | PyJson.obj fields => (List.lookup key fields).getD default
  | _ => default

/-- Python `x or d` for an optional string `x` (both `None` and `""` are
falsy). -/
def pyOr : Option String → String → String
  | none, d => d
  | some s, d => if s = "" then d else s

/-- Python `x or y` where both sides are optional strings. -/
def pyOrOpt : Option String → Option String → Option String
  | none, y => y
  | some s, y => if s = "" then y else some s

/-- Python truthiness of an optional string (used by `all([...])` in
`_exec_ssh`). -/
def optTruthy : Option String → Bool
  | none => false
  | some s => s != ""

/-- config.py: `RuntimeConfig` (defaults as in the dataclass). -/
structure RuntimeConfig where
  execution_mode : String := "dry_run"
  safe_confirm : Bool := true
  timeout_seconds : Nat := 60
  ssh_host : Option String := none
  ssh_user : Option String := none
  ssh_key_path : Option String := none
  ssh_port : Nat := 22

/-- The host facts `_detect_env_mode` consults: `platform.system().lower()`
and whether `shutil.which("wsl")` finds a WSL launcher. -/
structure Host where
  system : String
  wslAvailable : Bool

/-- shell.py: `ShellExecutor._detect_env_mode`. -/
def detect_env_mode (host : Host) (preferred : String) : String :=
  if preferred = "ssh" then "ssh"
  else if preferred = "local_linux" then "local_linux"
  else if preferred = "wsl" then (if host.wslAvailable then "wsl" else "dry_run")
  else if host.system = "linux" then "local_linux"
  else if host.system = "windows" && host.wslAvailable then "wsl"
  else "dry_run"

/-- Outcome of one `subprocess.run` call: normal completion, a
`TimeoutExpired` carrying the partial streams (`None` when nothing was
captured), or any other exception with its text. -/
inductive ProcOutcome where
  | completed (returncode : Int) (stdout stderr : String)
  | timedOut (stdout stderr : Option String)
  | raised (msg : String)

/-- Outcome of one SSH connect-and-execute round trip: remote completion,
or any exception during connect/execute with its text. -/
inductive SSHOutcome where
  | completed (exitStatus : Int) (out err : String)
  | raised (msg : String)

/-- The observable side effect of one `ShellExecutor.run` call: nothing,
a spawned subprocess with its argument list, or an SSH connection attempt. -/
inductive ShellEffect where
  | noEffect
  | spawned (cmdList : List String)
  | sshConnected
  deriving DecidableEq

/-- Oracle for the process and network boundary: what `subprocess.run`
would do with a given argument list and what the SSH round trip would do
with a given command. -/
structure World where
  procOutcome : List String → ProcOutcome
  sshOutcome : String → SSHOutcome

/-- shell.py: `ShellExecutor` (its two instance fields). -/
structure ShellExecutor where
  config : RuntimeConfig
  env_mode : String

/-- shell.py: `ShellExecutor.__init__` — resolves `env_mode` once from the
configured mode and the host. -/
def ShellExecutor.make (host : Host) (config : RuntimeConfig) : ShellExecutor :=
  { config := config, env_mode := detect_env_mode host config.execution_mode }

/-- shell.py: the `try/except` of `ShellExecutor._exec_process`, mapping a
subprocess outcome to the returned triple. -/
def exec_process_result : ProcOutcome → Int × String × String
  | ProcOutcome.completed rc out err => (rc, out, err)
  | ProcOutcome.timedOut pout perr => (124, pyOr pout "", pyOr perr "命令执行超时")
  | ProcOutcome.raised msg => (1, "", "执行错误: " ++ msg)

/-- shell.py: `ShellExecutor._exec_ssh`, with the connection modelled by the
world oracle.  `all([host, user, key_path])` uses Python truthiness. -/
def exec_ssh (cfg : RuntimeConfig) (w : World) (command : String) :
    (Int × String × String) × ShellEffect :=
  if optTruthy cfg.ssh_host && optTruthy cfg.ssh_user && optTruthy cfg.ssh_key_path then
    match w.sshOutcome command with
    | SSHOutcome.completed st out err => ((st, out, err), ShellEffect.sshConnected)
    | SSHOutcome.raised msg => ((1, "", "SSH执行错误: " ++ msg), ShellEffect.sshConnected)
  else
    ((0, "[DRY-RUN] SSH信息未配置(ssh_host/ssh_user/ssh_key_path)，将不执行: " ++ command, ""),
      ShellEffect.noEffect)

/-- shell.py: `ShellExecutor.run`, returning the result triple together with
the observable side effect of the call. -/
def ShellExecutor.run (ex : ShellExecutor) (w : World) (command : String) :
    (Int × String × String) × ShellEffect :=
  if ex.env_mode = "dry_run" then
    ((0, "[DRY-RUN] 将执行: " ++ command, ""), ShellEffect.noEffect)
  else if ex.env_mode = "local_linux" then
    (exec_process_result (w.procOutcome ["bash", "-lc", command]),
      ShellEffect.spawned ["bash", "-lc", command])
  else if ex.env_mode = "wsl" then
    (exec_process_result (w.procOutcome ["wsl", "bash", "-lc", command]),
      ShellEffect.spawned ["wsl", "bash", "-lc", command])
  else if ex.env_mode = "ssh" then
    exec_ssh ex.config w command
  else
    ((1, "不支持的执行模式", ""), ShellEffect.noEffect)

/-- llm.py: the configuration of the `ChatOpenAI` client `get_llm` builds. -/
structure LLMClient where
  api_key : String
  base_url : String
  model : String
  temperature : Rat

def DEFAULT_DEEPSEEK_MODEL : String := "deepseek-chat"

def DEFAULT_BASE_URL : String := "https://api.deepseek.com/v1"

def missingKeyMsg : String :=
  "缺少API Key。请在环境变量或.env中设置 DEEPSEEK_API_KEY 或 OPENAI_API_KEY。"

/-- llm.py: `get_llm`.  `env` is the process environment
(`os.environ.get`); a raised `ValueError` is the `Except.error` case. -/
def get_llm (env : String → Option String) (api_key : Option String)
    (base_url : Option String) (model : String) (temperature : Rat) :
    Except String LLMClient :=
  let key := pyOrOpt api_key (pyOrOpt (env "DEEPSEEK_API_KEY") (env "OPENAI_API_KEY"))
  if optTruthy key then
    let burl := pyOr (pyOrOpt base_url
      (pyOrOpt (env "OPENAI_BASE_URL") (env "DEEPSEEK_API_BASE"))) DEFAULT_BASE_URL
    Except.ok { api_key := key.getD "", base_url := burl, model := model,
                temperature := temperature }
  else
    Except.error missingKeyMsg

/-- Index of the first occurrence of a character in a character list. -/
def firstIdx : List Char → Char → Option Nat
  | [], _ => none
  | x :: xs, c => if x = c then some 0 else (firstIdx xs c).map (· + 1)

/-- Python `text.find(c)`: index of the first occurrence, `-1` if absent. -/
def pyFind (text : String) (c : Char) : Int :=
  match firstIdx text.toList c with
  | none => -1
  | some i => (i : Int)

/-- Python `text.rfind(c)`: index of the last occurrence, `-1` if absent. -/
def pyRfind (text : String) (c : Char) : Int :=
  match firstIdx text.toList.reverse c with
  | none => -1
  | some i => ((text.toList.length - 1 - i : Nat) : Int)

/-- Python `text[s:e]` for `0 ≤ s ≤ e` (the only use in the source). -/
def pySlice (text : String) (s e : Int) : String :=
  String.mk (((text.toList).drop s.toNat).take (e - s).toNat)

/-- The bracket-extraction step of `_safe_json_loads`: the substring from
the first `{` to the last `}` inclusive, provided both exist and the last
`}` lies strictly after the first `{` (otherwise no attempt is made). -/
def braceSlice (text : String) : Option String :=
  let start := pyFind text '{'
  let stop := pyRfind text '}'
  if start ≠ -1 ∧ stop ≠ -1 ∧ stop > start then some (pySlice text start (stop + 1))
  else none

/-- graph.py: the fallback record `_safe_json_loads` returns when no JSON
could be parsed (`解析失败` is the "parsing failed" literal). -/
def parseFallback : PyJson :=
  PyJson.obj [("command", PyJson.str ""), ("rationale", PyJson.str "解析失败"),
              ("visual_hint", PyJson.str ""), ("risk", PyJson.str "unknown")]

/-- graph.py: `_safe_json_loads`.  `parse` is the `json.loads` oracle
(`none` models a raised exception). -/
def safe_json_loads (parse : String → Option PyJson) (text : String) : PyJson :=
  match parse text with
  | some v => v
  | none =>
    match braceSlice text with
    | some sub =>
      match parse sub with
      | some v => v
      | none => parseFallback
    | none => parseFallback

/-- The candidate record built by the graph nodes
(`{command, rationale, visual_hint, risk}`); values are JSON values because
the source propagates whatever `data.get` returns, without coercion. -/
structure Candidate where
  command : PyJson
  rationale : PyJson
  visual_hint : PyJson
  risk : PyJson

/-- Outcome of one `llm.invoke` call: a textual response, or a raised
exception with its text. -/
inductive LLMOutcome where
  | ok (content : String)
  | failure (err : String)

/-- graph.py, `analyze_node`: the value `data` holds after the
`try/except` (the except branch builds the hardcoded safe dict). -/
def analyze_data (parse : String → Option PyJson) (out : LLMOutcome) : PyJson :=
  match out with
  | LLMOutcome.ok content => safe_json_loads parse content
  | LLMOutcome.failure e =>
    PyJson.obj [("command", PyJson.str "uptime"),
      ("rationale", PyJson.str ("LLM调用失败，使用安全只读命令。错误: " ++ e)),
      ("visual_hint", PyJson.str "用列展示负载与时间"),
      ("risk", PyJson.str "low")]

/-- graph.py: `analyze_node`'s candidate construction, which happens
OUTSIDE the `try` block: the four `data.get` calls raise `AttributeError`
exactly when `data` is not a dict, so the node itself can raise. -/
def analyze_node (parse : String → Option PyJson) (out : LLMOutcome) :
    Except String Candidate :=
  match analyze_data parse out with
  | PyJson.obj fields =>
    Except.ok
      { command := (List.lookup "command" fields).getD (PyJson.str ""),
        rationale := (List.lookup "rationale" fields).getD (PyJson.str ""),
        visual_hint := (List.lookup "visual_hint" fields).getD (PyJson.str ""),
        risk := (List.lookup "risk" fields).getD (PyJson.str "low") }
  | _ => Except.error pyAttrErr

/-- graph.py, `reflect_node`: the dict assigned to `data` in the except
branch. -/
def reflect_fail_data (e : String) : PyJson :=
  PyJson.obj [("next_command", PyJson.str ""),
    ("rationale", PyJson.str ("LLM调用失败，建议停止。错误: " ++ e)),
    ("visual_hint", PyJson.str ""),
    ("risk", PyJson.str "low")]

/-- graph.py, `reflect_node`: the `try/except` computing
`(cont, data, next_cmd)`.  Unlike `analyze_node`, the `.get` calls on the
parsed data are INSIDE the `try`, so a non-dict response is caught and
degrades to the stop decision. -/
def reflect_try (parse : String → Option PyJson) (out : LLMOutcome) :
    Bool × PyJson × PyJson :=
  match out with
  | LLMOutcome.failure e => (false, reflect_fail_data e, PyJson.str "")
  | LLMOutcome.ok content =>
    match safe_json_loads parse content with
    | PyJson.obj fields =>
      (((List.lookup "continue" fields).getD (PyJson.bool false)).truthy,
        PyJson.obj fields,
        (List.lookup "next_command" fields).getD (PyJson.str ""))
    | _ => (false, reflect_fail_data pyAttrErr, PyJson.str "")

/-- graph.py, `reflect_node`: the continue flag and new candidate produced
after the `try/except`.  `data` is a dict on every path reaching the
candidate construction, so the `.getd` reads cannot raise. -/
def reflect_candidate (parse : String → Option PyJson) (out : LLMOutcome) :
    Bool × Candidate :=
  let r := reflect_try parse out
  (r.1, { command := r.2.2,
          rationale := r.2.1.getd "rationale" (PyJson.str ""),
          visual_hint := r.2.1.getd "visual_hint" (PyJson.str ""),
          risk := r.2.1.getd "risk" (PyJson.str "low") })

/-- graph.py: `AgentState`.  History records are the single-key dicts
`{"user": text}` / `{"observation": text}`, modelled as key-value pairs. -/
structure AgentState where
  user_input : String
  history : List (String × String)
  candidate : Candidate
  approval : Option Bool
  observation : String
  continue_flag : Bool
  decision : Option String
  interrupt_text : Option String

/-- The nodes of the compiled graph, plus the terminal state (`END`) and an
error state modelling an uncaught exception inside a node (which aborts the
invocation and is caught only at the CLI boundary). -/
inductive Node where
  | analyze
  | confirm
  | execute
  | reflect
  | terminal
  | err
  deriving DecidableEq

/-- The environment one compiled graph runs in: the build-time
non-interactive-decline flag and time-indexed oracles for `json.loads`,
`llm.invoke`, the operator's `input()` answers, and `executor.run` (the
index is the number of node steps already taken, so each call site draws a
fresh, independent outcome). -/
structure GraphEnv where
  nonInteractiveDecline : Bool
  parse : String → Option PyJson
  llm : Nat → LLMOutcome
  answer : Nat → String
  shell : Nat → String → Int × String × String

/-- graph.py, `confirm_node`: the `(approval, decision)` pair.  In
non-interactive-decline mode the decision is forced to `reject` without
prompting; otherwise the stripped, lowered answer selects it. -/
def confirm_decide (env : GraphEnv) (t : Nat) : Option Bool × String :=
  if env.nonInteractiveDecline then (some false, "reject")
  else
    let ans := (env.answer t).trim.toLower
    if ans = "y" ∨ ans = "yes" then (some true, "approve")
    else if ans = "i" ∨ ans = "interrupt" then (none, "interrupt")
    else (some false, "reject")

/-- graph.py, `build_app`: the conditional-edge table out of `confirm`
(`{"approve": execute, "reject": reflect, "interrupt": END}`). -/
def confirmRoute : Option String → Option Node
  | some "approve" => some Node.execute
  | some "reject" => some Node.reflect
  | some "interrupt" => some Node.terminal
  | _ => none

/-- One step of the compiled graph at step index `t`: runs the current
node's body and follows the outgoing (conditional) edge. -/
def stepAt (env : GraphEnv) (t : Nat) : Node × AgentState → Node × AgentState
  | (Node.analyze, s) =>
    match analyze_node env.parse (env.llm t) with
    | Except.ok c => (Node.confirm, { s with candidate := c })
    | Except.error _ => (Node.err, s)
  | (Node.confirm, s) =>
    let ad := confirm_decide env t
    let s' := { s with approval := ad.1, decision := some ad.2 }
    match confirmRoute s'.decision with
    | some n => (n, s')
    | none => (Node.err, s')
  | (Node.execute, s) =>
    if s.candidate.command.truthy = false then
      (Node.reflect, { s with observation := "没有可执行命令" })
    else
      match s.candidate.command with
      | PyJson.str cmd =>
        let r := env.shell t cmd
        (Node.reflect, { s with observation :=
          "returncode=" ++ toString r.1 ++ "\nstdout=\n" ++ r.2.1 ++
          "\nstderr=\n" ++ r.2.2 })
      | _ => (Node.err, s)
  | (Node.reflect, s) =>
    let history := s.history ++ [("user", s.user_input), ("observation", s.observation)]
    let rc := reflect_candidate env.parse (env.llm t)
    let s' := { s with history := history, continue_flag := rc.1, candidate := rc.2 }
    (if rc.1 then Node.confirm else Node.terminal, s')
  | (Node.terminal, s) => (Node.terminal, s)
  | (Node.err, s) => (Node.err, s)

/-- `n` steps of the graph starting at step index `t`. -/
def iterFrom (env : GraphEnv) : Nat → Nat → Node × AgentState → Node × AgentState
  | _, 0, ms => ms
  | t, Nat.succ n, ms => iterFrom env (t + 1) n (stepAt env t ms)

/-- cli.py: the initial `state` dict built for one invocation (history is
the carried-forward session history, empty on the first turn / in `once`
mode). -/
def initState (ui : String) : AgentState :=
  { user_input := ui, history := [],
    candidate := { command := PyJson.str "", rationale := PyJson.str "",
                   visual_hint := PyJson.str "", risk := PyJson.str "low" },
    approval := none, observation := "", continue_flag := false,
    decision := none, interrupt_text := none }

/-- A world in which every spawned process completes normally (`bash -lc`
producing an uptime-style line) and every SSH round trip succeeds. -/
def wUp : World :=
  { procOutcome := fun _ => ProcOutcome.completed 0 "14:02:11 up 3 days" "",
    sshOutcome := fun _ => SSHOutcome.completed 0 "" "" }

/-- A world in which every spawned process hits `TimeoutExpired` with some
partial stdout and no captured stderr. -/
def wTimeout : World :=
  { procOutcome := fun _ => ProcOutcome.timedOut (some "partial out") none,
    sshOutcome := fun _ => SSHOutcome.completed 0 "" "" }

/-- A `json.loads` oracle on which every parse attempt raises. -/
def parseNone : String → Option PyJson := fun _ => none

/-- A `json.loads` oracle recording the real fact `json.loads("3") == 3`
(valid JSON that is not an object); every other input raises. -/
def parse3 : String → Option PyJson := fun t =>
  if t = "3" then some (PyJson.num 3) else none

/-- A model response that is a JSON object whose `risk` value lies outside
the `low`/`medium`/`high` enumeration. -/
def respCata : String :=
  "\x7b\"command\": \"ls -la /tmp\", \"risk\": \"catastrophic\"\x7d"

/-- A `json.loads` oracle recording what `json.loads` returns on
`respCata`; every other input raises. -/
def parseCata : String → Option PyJson := fun t =>
  if t = respCata then
    some (PyJson.obj [("command", PyJson.str "ls -la /tmp"),
                      ("risk", PyJson.str "catastrophic")])
  else none

/-- A graph environment in non-interactive decline mode whose model call
always returns the literal text `3`. -/
def env3 : GraphEnv :=
  { nonInteractiveDecline := true, parse := parse3,
    llm := fun _ => LLMOutcome.ok "3",
    answer := fun _ => "", shell := fun _ _ => (0, "", "") }

/-- A graph environment in non-interactive decline mode whose model call
always fails (e.g. the network is down). -/
def envDecline : GraphEnv :=
  { nonInteractiveDecline := true, parse := parseNone,
    llm := fun _ => LLMOutcome.failure "connection refused",
    answer := fun _ => "", shell := fun _ _ => (0, "", "") }

/-- An environment with both credential variables set,
`DEEPSEEK_API_KEY` to one value and `OPENAI_API_KEY` to another. -/
def envAB : String → Option String := fun k =>
  if k = "DEEPSEEK_API_KEY" then some "sk-deepseek-alpha"
  else if k = "OPENAI_API_KEY" then some "sk-openai-beta"
  else none

/-- Helper: for an executor whose resolved mode is one of the four known
backends, `run` never produces the residual unsupported-mode result (that
result carries no side effect and exit code 1, which no reachable branch
produces together). -/
theorem shell_run_never_residual (ex : ShellExecutor)
    (hmem : ex.env_mode ∈ ["dry_run", "local_linux", "wsl", "ssh"])
    (w : World) (cmd : String) :
    ex.run w cmd ≠ ((1, "不支持的执行模式", ""), ShellEffect.noEffect) := by
  simp only [List.mem_cons, List.not_mem_nil, or_false] at hmem
  rcases hmem with h | h | h | h
  · simp [ShellExecutor.run, h]
  · simp [ShellExecutor.run, h]
  · simp [ShellExecutor.run, h]
  · have hrun : ex.run w cmd = exec_ssh ex.config w cmd := by
      simp [ShellExecutor.run, h]
    rw [hrun]
    unfold exec_ssh
    split
    · cases w.sshOutcome cmd <;> simp
    · simp

/-- C1 (counterexample): on a Linux host, a Shell Executor constructed with
execution mode `dry_run` does NOT return the dry-run preview — the
preferred mode falls through to auto-detection, the resolved backend is
`local_linux`, and `run` spawns a process, so the claim's
"regardless of the host operating system" fails. -/
theorem C1_counterexample :
    (ShellExecutor.make { system := "linux", wslAvailable := false }
        { execution_mode := "dry_run" }).run wUp "uptime"
      ≠ ((0, "[DRY-RUN] 将执行: uptime", ""), ShellEffect.noEffect) := by
  decide

/-- C1 (amended): for every command string, a Shell Executor constructed
with execution mode `dry_run` on a host that is neither Linux nor
Windows-with-a-WSL-launcher (so auto-detection resolves to the dry-run
backend) has `run` return exit code 0, empty stderr, and stdout exactly
`[DRY-RUN] 将执行: <command>`, spawning no process and making no network
call. -/
theorem C1_dry_run_preview (host : Host) (cfg : RuntimeConfig) (w : World)
    (cmd : String) (hmode : cfg.execution_mode = "dry_run")
    (hsys : host.system ≠ "linux")
    (hwin : ¬(host.system = "windows" ∧ host.wslAvailable = true)) :
    (ShellExecutor.make host cfg).run w cmd
      = ((0, "[DRY-RUN] 将执行: " ++ cmd, ""), ShellEffect.noEffect) := by
  have hm : (ShellExecutor.make host cfg).env_mode = "dry_run" := by
    simp [ShellExecutor.make, detect_env_mode, hmode, hsys, hwin]
  simp [ShellExecutor.run, hm]

/-- Witness for C1 (amended) at a concrete macOS-style host. -/
theorem C1_dry_run_preview_witness :
    (ShellExecutor.make { system := "darwin", wslAvailable := false }
        { execution_mode := "dry_run" }).run wUp "uptime"
      = ((0, "[DRY-RUN] 将执行: uptime", ""), ShellEffect.noEffect) :=
  C1_dry_run_preview { system := "darwin", wslAvailable := false }
    { execution_mode := "dry_run" } wUp "uptime" rfl (by decide) (by decide)

/-- C5: for an executor resolved to the local or WSL backend (with the
corresponding `bash -lc` / `wsl bash -lc` argument list), a
`TimeoutExpired` outcome yields exit code 124, the partial stdout (empty
when none was captured), and stderr `命令执行超时` when no partial stderr
was produced — the partial stderr otherwise (`pyOr` is Python's `or`, under
which an uncaptured or empty stderr selects the notice); any other
execution error yields exit code 1, empty stdout, and a message embedding
the exception text.  `run` is total, so no error is ever raised. -/
theorem C5_timeout_and_error (ex : ShellExecutor) (w : World) (cmd : String)
    (cl : List String)
    (hcl : (ex.env_mode = "local_linux" ∧ cl = ["bash", "-lc", cmd]) ∨
           (ex.env_mode = "wsl" ∧ cl = ["wsl", "bash", "-lc", cmd])) :
    (∀ pout perr, w.procOutcome cl = ProcOutcome.timedOut pout perr →
      ex.run w cmd = ((124, pyOr pout "", pyOr perr "命令执行超时"),
        ShellEffect.spawned cl)) ∧
    (∀ msg, w.procOutcome cl = ProcOutcome.raised msg →
      ex.run w cmd = ((1, "", "执行错误: " ++ msg), ShellEffect.spawned cl)) := by
  constructor
  · intro pout perr hout
    rcases hcl with ⟨hm, hc⟩ | ⟨hm, hc⟩ <;> subst hc <;>
      simp [ShellExecutor.run, hm, hout, exec_process_result]
  · intro msg hout
    rcases hcl with ⟨hm, hc⟩ | ⟨hm, hc⟩ <;> subst hc <;>
      simp [ShellExecutor.run, hm, hout, exec_process_result]

/-- Witness for C5 at a concrete local-Linux executor and a timed-out
process with partial stdout and no captured stderr. -/
theorem C5_timeout_and_error_witness :
    (ShellExecutor.make { system := "linux", wslAvailable := false }
        { execution_mode := "local_linux" }).run wTimeout "sleep 999"
      = ((124, "partial out", "命令执行超时"),
          ShellEffect.spawned ["bash", "-lc", "sleep 999"]) :=
  (C5_timeout_and_error _ wTimeout "sleep 999" ["bash", "-lc", "sleep 999"]
    (Or.inl ⟨rfl, rfl⟩)).1 (some "partial out") none rfl

/-- C6: for every command string and every RuntimeConfig in `ssh` mode with
at least one of `ssh_host`, `ssh_user`, `ssh_key_path` absent (which covers
all seven missing-field subsets), `run` returns exit code 0, a dry-run
style preview embedding the command, and empty stderr, attempting no
connection. -/
theorem C6_ssh_missing_config (host : Host) (cfg : RuntimeConfig) (w : World)
    (cmd : String) (hm : cfg.execution_mode = "ssh")
    (hmiss : cfg.ssh_host = none ∨ cfg.ssh_user = none ∨ cfg.ssh_key_path = none) :
    (ShellExecutor.make host cfg).run w cmd
      = ((0, "[DRY-RUN] SSH信息未配置(ssh_host/ssh_user/ssh_key_path)，将不执行: " ++ cmd, ""),
          ShellEffect.noEffect) := by
  have hmode : detect_env_mode host cfg.execution_mode = "ssh" := by
    simp [detect_env_mode, hm]
  rcases hmiss with h | h | h <;>
    simp [ShellExecutor.run, ShellExecutor.make, hmode, exec_ssh, optTruthy, h]

/-- Witness for C6 with only `ssh_user` configured. -/
theorem C6_ssh_missing_config_witness :
    (ShellExecutor.make { system := "linux", wslAvailable := false }
        { execution_mode := "ssh", ssh_user := some "root" }).run wUp "df -h"
      = ((0, "[DRY-RUN] SSH信息未配置(ssh_host/ssh_user/ssh_key_path)，将不执行: df -h", ""),
          ShellEffect.noEffect) :=
  C6_ssh_missing_config { system := "linux", wslAvailable := false }
    { execution_mode := "ssh", ssh_user := some "root" } wUp "df -h" rfl
    (Or.inl rfl)

/-- C10: for every RuntimeConfig and every host, backend resolution at
construction yields one of `dry_run`, `local_linux`, `wsl`, `ssh`, and the
`run` method's residual unsupported-mode branch (exit 1,
`不支持的执行模式`, no side effect) is unreachable; `run` is a total
function, so it always returns a result triple without raising. -/
theorem C10_backend_resolution_total (host : Host) (cfg : RuntimeConfig) :
    (ShellExecutor.make host cfg).env_mode ∈ ["dry_run", "local_linux", "wsl", "ssh"] ∧
    ∀ (w : World) (cmd : String),
      (ShellExecutor.make host cfg).run w cmd
        ≠ ((1, "不支持的执行模式", ""), ShellEffect.noEffect) := by
  have hmem : (ShellExecutor.make host cfg).env_mode
      ∈ ["dry_run", "local_linux", "wsl", "ssh"] := by
    show detect_env_mode host cfg.execution_mode ∈ _
    unfold detect_env_mode
    split_ifs <;> simp
  exact ⟨hmem, fun w cmd => shell_run_never_residual _ hmem w cmd⟩

/-- Witness for C10 at a concrete host and configuration. -/
theorem C10_backend_resolution_total_witness :
    (ShellExecutor.make { system := "linux", wslAvailable := false }
        { execution_mode := "dry_run" }).run wUp "uptime"
      ≠ ((1, "不支持的执行模式", ""), ShellEffect.noEffect) :=
  (C10_backend_resolution_total { system := "linux", wslAvailable := false }
    { execution_mode := "dry_run" }).2 wUp "uptime"

/-- C2 (code behaviour at the failing input, plus the confirmed parts):
(1) on the model response `3` — valid JSON that is not an object — the
Analyze step raises (`data.get` on a non-dict), and (2) the invocation
therefore aborts instead of producing a candidate; (3) a model-call failure
in Analyze degrades to the hardcoded safe candidate `uptime` with risk
`low`; (4) a model-call failure in Reflect degrades to continue = false
with an empty next command. -/
theorem C2_failure_handling :
    (analyze_node parse3 (LLMOutcome.ok "3") = Except.error pyAttrErr) ∧
    (∀ (t : Nat) (s : AgentState), stepAt env3 t (Node.analyze, s) = (Node.err, s)) ∧
    (∀ (parse : String → Option PyJson) (e : String),
      analyze_node parse (LLMOutcome.failure e) = Except.ok
        { command := PyJson.str "uptime",
          rationale := PyJson.str ("LLM调用失败，使用安全只读命令。错误: " ++ e),
          visual_hint := PyJson.str "用列展示负载与时间",
          risk := PyJson.str "low" }) ∧
    (∀ (parse : String → Option PyJson) (e : String),
      reflect_candidate parse (LLMOutcome.failure e) = (false,
        { command := PyJson.str "",
          rationale := PyJson.str ("LLM调用失败，建议停止。错误: " ++ e),
          visual_hint := PyJson.str "",
          risk := PyJson.str "low" })) := by
  refine ⟨rfl, ?_, ?_, ?_⟩
  · intro t s; rfl
  · intro parse e; rfl
  · intro parse e; rfl

/-- C3 (counterexample): a model response whose `risk` is the
out-of-enumeration string `catastrophic` is propagated verbatim into the
candidate by the Analyze step — it is not replaced by a default. -/
theorem C3_counterexample :
    analyze_node parseCata (LLMOutcome.ok respCata) = Except.ok
      { command := PyJson.str "ls -la /tmp", rationale := PyJson.str "",
        visual_hint := PyJson.str "", risk := PyJson.str "catastrophic" } ∧
    "catastrophic" ∉ ["low", "medium", "high", "unknown"] :=
  ⟨rfl, by decide⟩

/-- C3 (amended): the `risk` field of the candidate produced by the Analyze
or Reflect step is taken verbatim from the parsed response object (whatever
string or value it holds, with no closed-enumeration validation),
defaulting to `low` when the key is absent; `unknown` arises only from the
parse-failure fallback record. -/
theorem C3_risk_propagated_verbatim (parse : String → Option PyJson)
    (content : String) (fields : List (String × PyJson))
    (h : safe_json_loads parse content = PyJson.obj fields) :
    (analyze_node parse (LLMOutcome.ok content) = Except.ok
      { command := (List.lookup "command" fields).getD (PyJson.str ""),
        rationale := (List.lookup "rationale" fields).getD (PyJson.str ""),
        visual_hint := (List.lookup "visual_hint" fields).getD (PyJson.str ""),
        risk := (List.lookup "risk" fields).getD (PyJson.str "low") }) ∧
    ((reflect_candidate parse (LLMOutcome.ok content)).2.risk
      = (List.lookup "risk" fields).getD (PyJson.str "low")) := by
  constructor
  · simp [analyze_node, analyze_data, h]
  · simp [reflect_candidate, reflect_try, h, PyJson.getd]

/-- Witness for C3 (amended) at the concrete out-of-enumeration response. -/
theorem C3_risk_propagated_verbatim_witness :
    analyze_node parseCata (LLMOutcome.ok respCata) = Except.ok
      { command := PyJson.str "ls -la /tmp", rationale := PyJson.str "",
        visual_hint := PyJson.str "", risk := PyJson.str "catastrophic" } :=
  (C3_risk_propagated_verbatim parseCata respCata
    [("command", PyJson.str "ls -la /tmp"), ("risk", PyJson.str "catastrophic")]
    rfl).1

/-- Helper: in non-interactive decline mode, no single step of the graph
can move into the Execute node. -/
theorem decline_step_not_execute (env : GraphEnv)
    (h : env.nonInteractiveDecline = true) (t : Nat)
    (ms : Node × AgentState) (hm : ms.1 ≠ Node.execute) :
    (stepAt env t ms).1 ≠ Node.execute := by
  obtain ⟨node, s⟩ := ms
  cases node with
  | analyze =>
    cases hA : analyze_node env.parse (env.llm t) <;> simp [stepAt, hA]
  | confirm => simp [stepAt, confirm_decide, h, confirmRoute]
  | execute => exact absurd rfl hm
  | reflect =>
    simp only [stepAt]
    split <;> simp
  | terminal => simp [stepAt]
  | err => simp [stepAt]

/-- Helper: the no-Execute invariant is preserved by any number of steps. -/
theorem decline_iter_not_execute (env : GraphEnv)
    (h : env.nonInteractiveDecline = true) :
    ∀ (n t : Nat) (ms : Node × AgentState), ms.1 ≠ Node.execute →
      (iterFrom env t n ms).1 ≠ Node.execute
  | 0, _, _, hm => hm
  | Nat.succ n, t, ms, hm =>
    decline_iter_not_execute env h n (t + 1) (stepAt env t ms)
      (decline_step_not_execute env h t ms hm)

/-- C4: when the graph runs in non-interactive decline mode (as in `once`
single-shot invocation), no reachable execution starting at the Analyze
entry point ever visits the Execute node — for every initial state, every
model response and every step count — because the Confirm step is forced to
`(approval = false, decision = reject)` without consulting the operator,
which routes to Reflect. -/
theorem C4_decline_never_executes (env : GraphEnv)
    (h : env.nonInteractiveDecline = true) (s0 : AgentState) (n : Nat) :
    (iterFrom env 0 n (Node.analyze, s0)).1 ≠ Node.execute ∧
    ∀ (t : Nat) (s : AgentState),
      stepAt env t (Node.confirm, s) =
        (Node.reflect, { s with approval := some false, decision := some "reject" }) := by
  constructor
  · exact decline_iter_not_execute env h n 0 (Node.analyze, s0) (by simp)
  · intro t s
    simp [stepAt, confirm_decide, h, confirmRoute]

/-- Witness for C4 at a concrete declining environment and six steps. -/
theorem C4_decline_never_executes_witness :
    (iterFrom envDecline 0 6 (Node.analyze, initState "查看系统负载")).1
      ≠ Node.execute :=
  (C4_decline_never_executes envDecline rfl (initState "查看系统负载") 6).1

/-- C7: the response parser first tries the whole text; a successful whole
parse is returned as-is; failing that, it tries the substring from the
first `{` to the last `}` inclusive, and a successful bracket parse is
returned; only when every attempt fails (including when no bracket range
exists) does it return exactly the fallback record (empty command,
`解析失败` — the "parsing failed" literal — empty visual hint, risk
`unknown`). -/
theorem C7_parser_precedence (parse : String → Option PyJson) (text : String) :
    (∀ v, parse text = some v → safe_json_loads parse text = v) ∧
    (∀ sub v, parse text = none → braceSlice text = some sub →
      parse sub = some v → safe_json_loads parse text = v) ∧
    (parse text = none → (∀ sub, braceSlice text = some sub → parse sub = none) →
      safe_json_loads parse text = parseFallback) := by
  refine ⟨?_, ?_, ?_⟩
  · intro v hv
    simp [safe_json_loads, hv]
  · intro sub v h1 h2 h3
    simp [safe_json_loads, h1, h2, h3]
  · intro h1 h2
    rcases hb : braceSlice text with _ | sub
    · simp [safe_json_loads, h1, hb]
    · simp [safe_json_loads, h1, hb, h2 sub hb]

/-- Witness for C7: the spec's own example `not json at all` (no brackets,
nothing parses) yields exactly the fallback record. -/
theorem C7_parser_precedence_witness :
    safe_json_loads parseNone "not json at all" = parseFallback :=
  (C7_parser_precedence parseNone "not json at all").2.2 rfl (fun _ _ => rfl)

/-- C8: the Language-Model Client Factory resolves the API key with
precedence explicit argument → `DEEPSEEK_API_KEY` → `OPENAI_API_KEY`: with
both variables set (to a non-empty value) it resolves the DeepSeek one;
with only `OPENAI_API_KEY` set it resolves that; with neither set and no
explicit argument, construction fails with the missing-credential error
instead of returning a client. -/
theorem C8_key_resolution_precedence :
    (∀ (env : String → Option String) (A B : String), A ≠ "" →
      env "DEEPSEEK_API_KEY" = some A → env "OPENAI_API_KEY" = some B →
      ∃ c, get_llm env none none DEFAULT_DEEPSEEK_MODEL (2/10) = Except.ok c ∧
        c.api_key = A) ∧
    (∀ (env : String → Option String) (B : String), B ≠ "" →
      env "DEEPSEEK_API_KEY" = none → env "OPENAI_API_KEY" = some B →
      ∃ c, get_llm env none none DEFAULT_DEEPSEEK_MODEL (2/10) = Except.ok c ∧
        c.api_key = B) ∧
    (∀ env : String → Option String,
      env "DEEPSEEK_API_KEY" = none → env "OPENAI_API_KEY" = none →
      get_llm env none none DEFAULT_DEEPSEEK_MODEL (2/10)
        = Except.error missingKeyMsg) := by
  refine ⟨?_, ?_, ?_⟩
  · intro env A B hA hD hO
    have hk : (A != "") = true := by simpa using hA
    refine ⟨{ api_key := A,
              base_url := pyOr (pyOrOpt (env "OPENAI_BASE_URL")
                (env "DEEPSEEK_API_BASE")) DEFAULT_BASE_URL,
              model := DEFAULT_DEEPSEEK_MODEL, temperature := 2/10 }, ?_, rfl⟩
    simp [get_llm, pyOrOpt, hD, hO, hA, hk, optTruthy]
  · intro env B hB hD hO
    have hk : (B != "") = true := by simpa using hB
    refine ⟨{ api_key := B,
              base_url := pyOr (pyOrOpt (env "OPENAI_BASE_URL")
                (env "DEEPSEEK_API_BASE")) DEFAULT_BASE_URL,
              model := DEFAULT_DEEPSEEK_MODEL, temperature := 2/10 }, ?_, rfl⟩
    simp [get_llm, pyOrOpt, hD, hO, hB, hk, optTruthy]
  · intro env hD hO
    simp [get_llm, pyOrOpt, hD, hO, optTruthy]

/-- Witness for C8: with both variables set, the resolved key is the
DeepSeek one. -/
theorem C8_key_resolution_precedence_witness :
    ∃ c, get_llm envAB none none DEFAULT_DEEPSEEK_MODEL (2/10) = Except.ok c ∧
      c.api_key = "sk-deepseek-alpha" :=
  C8_key_resolution_precedence.1 envAB "sk-deepseek-alpha" "sk-openai-beta"
    (by decide) rfl rfl

/-- C9: history is append-only — every node other than Reflect leaves it
untouched, and each pass through the Reflect step appends exactly two
records at the end, in order `{"user": user_input}` then
`{"observation": observation}` (never reordering or deduplicating); in
particular, after one full Analyze→Confirm(reject)→Reflect cycle starting
from the CLI's empty-history initial state, the history is exactly the user
entry for the original input followed by an observation entry equal to the
empty string. -/
theorem C9_history_append_only (env : GraphEnv) :
    (∀ (t : Nat) (node : Node) (s : AgentState), node ≠ Node.reflect →
      ((stepAt env t (node, s)).2).history = s.history) ∧
    (∀ (t : Nat) (s : AgentState),
      ((stepAt env t (Node.reflect, s)).2).history
        = s.history ++ [("user", s.user_input), ("observation", s.observation)]) ∧
    (∀ ui : String, env.nonInteractiveDecline = true →
      (stepAt env 0 (Node.analyze, initState ui)).1 = Node.confirm →
      ((iterFrom env 0 3 (Node.analyze, initState ui)).2).history
        = [("user", ui), ("observation", "")]) := by
  refine ⟨?_, ?_, ?_⟩
  · intro t node s hn
    cases node with
    | analyze =>
      simp only [stepAt]
      split <;> rfl
    | confirm =>
      simp only [stepAt]
      split <;> rfl
    | execute =>
      simp only [stepAt]
      split
      · rfl
      · split <;> rfl
    | reflect => exact absurd rfl hn
    | terminal => rfl
    | err => rfl
  · intro t s
    rfl
  · intro ui hdec hstep
    rcases hA : analyze_node env.parse (env.llm 0) with e | c
    · rw [show (stepAt env 0 (Node.analyze, initState ui)).1 = Node.err from by
        simp [stepAt, hA]] at hstep
      exact absurd hstep (by simp)
    · show (iterFrom env 1 2 (stepAt env 0 (Node.analyze, initState ui))).2.history = _
      rw [show stepAt env 0 (Node.analyze, initState ui)
          = (Node.confirm, { initState ui with candidate := c }) from by
        simp [stepAt, hA]]
      show (iterFrom env 2 1
        (stepAt env 1 (Node.confirm, { initState ui with candidate := c }))).2.history = _
      rw [show stepAt env 1 (Node.confirm, { initState ui with candidate := c })
          = (Node.reflect, { initState ui with candidate := c, approval := some false, decision := some "reject" }) from by
        simp [stepAt, confirm_decide, hdec, confirmRoute]]
      rfl

/-- Witness for C9's concrete cycle in a declining environment. -/
theorem C9_history_append_only_witness :
    ((iterFrom envDecline 0 3 (Node.analyze, initState "hello")).2).history
      = [("user", "hello"), ("observation", "")] :=
  (C9_history_append_only envDecline).2.2 "hello" rfl (by decide)
